import Mathlib

/-!
# Translation orchestration of `script.js` (class `GoogleTranslator`)

A shallow embedding of the orchestration code of `src/script.js`:
`detectLanguage`, `getTranslation`, `translate`, `swapLanguages`,
`debounceTranslate`, `checkAPISupport`, `updateDetectedLanguage` and
`updateCharCount`.

Modelling conventions.

* The mutable fields of the single `GoogleTranslator` instance and the DOM
  slots it reads and writes form the record `Session`; every method is a
  function from a session to a session (plus its result).
* Host capabilities (`window.Translator`, `window.LanguageDetector`, the
  engine and detector handles) are external and fallible.  The code has no
  loops, so each `await` site runs at most once per call; the answer of the
  host at each site is an input of the model (`DetectEnv`, `RequestEnv`,
  `TranslateEnv`, `SwapEnv`).  A rejected promise or thrown exception is
  `Except.error`.
* One invocation is run to completion; interleavings of overlapping
  invocations are outside the model.
* Engine and detector handles are opaque objects compared by identity; they
  are natural numbers here.
* `calls`, `outputWrites` and `console` in `Session` are instrumentation:
  they record capability calls, assignments to `outputText.textContent` and
  console messages, in program order.
-/

namespace GoogleTranslate

/-! ## JavaScript values and strings -/

/-- The JavaScript values that can flow out of `detectLanguage`: a string or
`undefined`. -/
inductive JSVal where
  | undefined
  | str (s : String)
  deriving DecidableEq, Repr

/-- String conversion as done by template literals and DOM string setters. -/
def JSVal.toJSString : JSVal → String
  | .undefined => "undefined"
  | .str s => s

/-- JavaScript truthiness (`!x` is the negation of this). -/
def JSVal.truthy : JSVal → Bool
  | .undefined => false
  | .str s => s != ""

/-- A thrown value or promise rejection. -/
structure JSError where
  message : String
  deriving DecidableEq, Repr

/-- Opaque engine or detector object, compared by identity. -/
abbrev Handle := Nat

/-- The characters removed by `String.prototype.trim`: ECMAScript WhiteSpace
and LineTerminator code points. -/
def isJSWhitespace (c : Char) : Bool :=
  let n := c.toNat
  n = 0x9 || n = 0xA || n = 0xB || n = 0xC || n = 0xD || n = 0x20 || n = 0xA0
    || n = 0x1680 || (0x2000 ≤ n && n ≤ 0x200A) || n = 0x2028 || n = 0x2029
    || n = 0x202F || n = 0x205F || n = 0x3000 || n = 0xFEFF

/-- Trimming on character lists: drop whitespace at both ends. -/
def trimChars (cs : List Char) : List Char :=
  ((cs.dropWhile isJSWhitespace).reverse.dropWhile isJSWhitespace).reverse

/-- The JavaScript `text.trim()`. -/
def jsTrim (s : String) : String := ⟨trimChars s.data⟩

/-- The JavaScript `text.length` (UTF-16 code units). -/
def jsLength (s : String) : Nat :=
  (s.data.map (fun c => if c.toNat < 0x10000 then 1 else 2)).sum

/-! ## Class constants (lines 14-27) -/

/-- Line 14: `static DEFAULT_SOURCE_LANGUAGE = 'es'`. -/
def GoogleTranslator.DEFAULT_SOURCE_LANGUAGE : String := "es"

/-- Line 15: `static DEFAULT_TARGET_LANGUAGE = 'en'`. -/
def GoogleTranslator.DEFAULT_TARGET_LANGUAGE : String := "en"

/-- Lines 17-27: `static SUPPORTED_LANGUAGES`. -/
def GoogleTranslator.SUPPORTED_LANGUAGES : List String :=
  ["en", "es", "fr", "de", "it", "pt", "zh", "ja", "ru"]

/-- The expression `googleTranslator.DEFAULT_SOURCE_LANGUAGE` of lines 361 and
365.  `googleTranslator` (line 370, lower-case `g`) is the instance, not the
class.  A static class field is a property of the constructor function only;
it is neither an own property of an instance nor on its prototype chain, so
the lookup yields `undefined`. -/
def googleTranslator.DEFAULT_SOURCE_LANGUAGE : JSVal := .undefined

/-! ## Fixed user-visible strings -/

/-- Line 201. -/
def translatingStatus : String := "Traduciendo..."

/-- Lines 190 and 221. -/
def genericFailureMessage : String := "Error al traducir el texto."

/-- Lines 70 and 218. -/
def capabilityMissingMessage : String :=
  "Tu navegador no soporta la API de traducción de Google. Por favor, actualiza tu navegador o usa uno compatible."

/-- Line 152: message of the error thrown when the pair is unavailable. -/
def pairUnavailableMessage : String :=
  "La traducción no está disponible para los idiomas seleccionados."

/-- Line 160: message of the error rethrown by the availability block. -/
def availabilityCheckMessage : String :=
  "Error al verificar la disponibilidad de la traducción."

/-- Lines 176-178: the status string of one download-progress event; the
argument is the value of `Math.floor(event.loaded * 100)`. -/
def downloadStatus (percent : Nat) : String :=
  "Descargando modelo: " ++ toString percent ++ "%"

/-! ## Session state -/

/-- A call into a host capability. -/
inductive Call where
  | detectorCreate (expectedInputLanguages : List String)
  | detect (detector : Handle) (text : String)
  | availability (sourceLanguage : JSVal) (targetLanguage : String)
  | create (sourceLanguage : JSVal) (targetLanguage : String)
  | engineTranslate (translator : Handle) (text : String)
  deriving DecidableEq, Repr

/-- Is the call `Translator.create`? -/
def Call.isCreate : Call → Bool
  | .create _ _ => true
  | _ => false

/-- Is the call an engine `translate`? -/
def Call.isEngineTranslate : Call → Bool
  | .engineTranslate _ _ => true
  | _ => false

/-- Is the call `Translator.availability`? -/
def Call.isAvailability : Call → Bool
  | .availability _ _ => true
  | _ => false

/-- Is the call a detector creation or a `detect`? -/
def Call.isDetection : Call → Bool
  | .detectorCreate _ => true
  | .detect _ _ => true
  | _ => false

/-- Which host objects exist: `'Translator' in window` and
`'LanguageDetector' in window`. -/
structure Window where
  hasTranslator : Bool
  hasLanguageDetector : Bool
  deriving DecidableEq, Repr

/-- Modelled from the spec: the page markup and `dom.js` are not in the
source; the DOM elements obtained in `init` are the opaque read/write slots
of spec section 6 (`sourceLanguage`, `targetLanguage`, `inputText`,
`outputText`, the character counter, the label of the `auto` option and the
list of the other source options as value and label).  The remaining fields
are the instance fields of lines 8-11 and 65-66 and the instrumentation. -/
structure Session where
  sourceLanguage : String
  targetLanguage : String
  inputText : String
  outputText : String
  autoOptionText : String
  sourceOptions : List (String × String)
  charCount : Nat
  charCountColor : String
  hasNativeTranslator : Bool
  hasNativeDetector : Bool
  translationTimeout : Option Nat
  currentTranslator : Option Handle
  currentTranslatorKey : Option String
  currentDetector : Option Handle
  calls : List Call
  outputWrites : List String
  console : List String
  deriving DecidableEq, Repr

/-- The assignment `this.outputText.textContent = v`. -/
def Session.writeOutput (s : Session) (v : String) : Session :=
  { s with outputText := v, outputWrites := s.outputWrites ++ [v] }

/-- Record a capability call. -/
def Session.logCall (s : Session) (c : Call) : Session :=
  { s with calls := s.calls ++ [c] }

/-- A `console.log`, `console.warn` or `console.error`. -/
def Session.logConsole (s : Session) (m : String) : Session :=
  { s with console := s.console ++ [m] }

/-- The state right after the constructor (lines 4-12, 57); the source
selector starts at `auto`. -/
def Session.initial : Session :=
  { sourceLanguage := "auto"
    targetLanguage := GoogleTranslator.DEFAULT_TARGET_LANGUAGE
    inputText := ""
    outputText := ""
    autoOptionText := "Detectar idioma"
    sourceOptions := []
    charCount := 0
    charCountColor := "var(--text-secondary)"
    hasNativeTranslator := true
    hasNativeDetector := true
    translationTimeout := none
    currentTranslator := none
    currentTranslatorKey := none
    currentDetector := none
    calls := []
    outputWrites := []
    console := [] }

/-! ## Host answers -/

/-- One entry of the ranked list returned by `detector.detect`. -/
structure DetectionResult where
  detectedLanguage : String
  deriving DecidableEq, Repr

/-- Host answers at the two await sites of `detectLanguage`. -/
structure DetectEnv where
  create : Except JSError Handle
  detect : Handle → String → Except JSError (List DetectionResult)

/-- Answer of `Translator.create`: the download-progress events delivered to
the monitor (each as `Math.floor(event.loaded * 100)`), then the outcome. -/
structure CreateResponse where
  progress : List Nat
  result : Except JSError Handle

/-- Host answers at the await sites of `getTranslation`. -/
structure RequestEnv where
  detect : DetectEnv
  availability : JSVal → String → Except JSError String
  create : JSVal → String → CreateResponse
  engineTranslate : Handle → String → Except JSError String

/-- Host answers at the await sites of `translate`: its own detection (line
205) and those of the `getTranslation` call (line 211). -/
structure TranslateEnv where
  detect : DetectEnv
  request : RequestEnv

/-- Host answers at the await sites of `swapLanguages`: its own detection
(line 230) and those of the `translate` call (line 248). -/
structure SwapEnv where
  detect : DetectEnv
  translate : TranslateEnv

/-- The `TypeError` raised by a method call on an absent global. -/
def typeError : JSError := ⟨"TypeError"⟩

/-! ## Methods -/

/-- Lines 64-76.  Both branches end without a value: the call evaluates to
`undefined`. -/
def checkAPISupport (w : Window) (s : Session) : JSVal × Session :=
  let s := { s with hasNativeTranslator := w.hasTranslator,
                    hasNativeDetector := w.hasLanguageDetector }
  if !s.hasNativeTranslator || !s.hasNativeDetector then
    (.undefined, s.logConsole capabilityMissingMessage)
  else
    (.undefined, s.logConsole "Tu navegador soporta la API de traducción de Google.✅")

/-- Lines 96-106. -/
def updateCharCount (s : Session) : Session :=
  let text := s.inputText
  let s := { s with charCount := jsLength text }
  if jsLength text ≥ 5000 then
    { s with charCountColor := "var(--google-red)" }
  else
    { s with charCountColor := "var(--text-secondary)" }

/-- Lines 115-132.  The option lookup is by the string form of the detected
language among the options of the source selector; the `auto` option itself
is taken to exist, since the selector offers the `auto` sentinel. -/
def updateDetectedLanguage (detectedLanguage : JSVal) (s : Session) : Session :=
  let options := ("auto", s.autoOptionText) :: s.sourceOptions
  match options.find? (fun o => o.1 == detectedLanguage.toJSString) with
  | some option =>
    { s with autoOptionText := "Detectar idioma (" ++ option.2 ++ ")" }
  | none =>
    s.logConsole ("El idioma detectado (" ++ detectedLanguage.toJSString ++ ") no está soportado")

/-- Lines 349-353: reuse the cached detector or create one. -/
def acquireDetector (w : Window) (e : DetectEnv) (s : Session) :
    Except JSError Handle × Session :=
  match s.currentDetector with
  | some d => (.ok d, s)
  | none =>
    if w.hasLanguageDetector then
      let s := s.logCall (.detectorCreate GoogleTranslator.SUPPORTED_LANGUAGES)
      match e.create with
      | .ok d => (.ok d, { s with currentDetector := some d })
      | .error err => (.error err, s)
    else
      (.error typeError, s)

/-- Lines 347-367. -/
def detectLanguage (w : Window) (e : DetectEnv) (text : String) (s : Session) :
    JSVal × Session :=
  match acquireDetector w e s with
  | (.error _, s) =>
    (googleTranslator.DEFAULT_SOURCE_LANGUAGE, s.logConsole "Error al detectar el idioma:")
  | (.ok d, s) =>
    let s := s.logCall (.detect d text)
    match e.detect d text with
    | .error _ =>
      (googleTranslator.DEFAULT_SOURCE_LANGUAGE, s.logConsole "Error al detectar el idioma:")
    | .ok results =>
      let detectedLanguage : JSVal :=
        match results.head? with
        | some r => .str r.detectedLanguage
        | none => .undefined
      if detectedLanguage = .str "und" then
        (googleTranslator.DEFAULT_SOURCE_LANGUAGE, s)
      else
        (detectedLanguage, s)

/-- Lines 135-138: the value bound to `sourceLang`. -/
def resolveSource (w : Window) (e : DetectEnv) (text : String) (s : Session) :
    JSVal × Session :=
  if s.sourceLanguage = "auto" then detectLanguage w e text s
  else (.str s.sourceLanguage, s)

/-- Lines 144-161: the availability block. -/
def checkAvailability (w : Window) (e : RequestEnv) (sourceLang : JSVal)
    (targetLang : String) (s : Session) : Except JSError Unit × Session :=
  let inner : Except JSError Unit × Session :=
    if w.hasTranslator then
      let s := s.logCall (.availability sourceLang targetLang)
      match e.availability sourceLang targetLang with
      | .ok status =>
        if status = "unavailable" then (.error ⟨pairUnavailableMessage⟩, s)
        else (.ok (), s)
      | .error err => (.error err, s)
    else
      (.error typeError, s)
  match inner with
  | (.ok (), s) => (.ok (), s)
  | (.error _, s) =>
    (.error ⟨availabilityCheckMessage⟩,
      s.logConsole "Error al verificar la disponibilidad de la traducción:")

/-- Line 164: the cache key of a pair. -/
def translationKey (sourceLang : JSVal) (targetLang : String) : String :=
  sourceLang.toJSString ++ "-" ++ targetLang

/-- Lines 174-180: the monitor callback writes one status per
download-progress event. -/
def reportProgress (progress : List Nat) (s : Session) : Session :=
  progress.foldl (fun s p => s.writeOutput (downloadStatus p)) s

/-- Lines 167-170: the condition
`!this.currentTranslator || this.currentTranslatorKey !== translationKey`. -/
def needsNewEngine (s : Session) (key : String) : Bool :=
  s.currentTranslator.isNone || s.currentTranslatorKey != some key

/-- Lines 171-181: `this.currentTranslator = await window.Translator.create(...)`. -/
def createEngine (w : Window) (e : RequestEnv) (sourceLang : JSVal)
    (targetLang : String) (s : Session) : Except JSError Unit × Session :=
  if w.hasTranslator then
    let s := s.logCall (.create sourceLang targetLang)
    let r := e.create sourceLang targetLang
    let s := reportProgress r.progress s
    match r.result with
    | .ok h => (.ok (), { s with currentTranslator := some h })
    | .error err => (.error err, s)
  else
    (.error typeError, s)

/-- Lines 163-191: the translation block.  Everything thrown inside it is
caught at line 188 and replaced by the generic failure string. -/
def translateWithEngine (w : Window) (e : RequestEnv) (sourceLang : JSVal)
    (targetLang : String) (text : String) (s : Session) : String × Session :=
  let key := translationKey sourceLang targetLang
  let created : Except JSError Unit × Session :=
    if needsNewEngine s key then createEngine w e sourceLang targetLang s
    else (.ok (), s)
  match created with
  | (.error _, s) =>
    (genericFailureMessage, s.logConsole "Error al crear el traductor:")
  | (.ok (), s) =>
    let s := { s with currentTranslatorKey := some key }
    match s.currentTranslator with
    | none =>
      (genericFailureMessage, s.logConsole "Error al crear el traductor:")
    | some h =>
      let s := s.logCall (.engineTranslate h text)
      match e.engineTranslate h text with
      | .ok translation => (translation, s)
      | .error _ =>
        (genericFailureMessage, s.logConsole "Error al crear el traductor:")

/-- Lines 134-192. -/
def getTranslation (w : Window) (e : RequestEnv) (text : String) (s : Session) :
    Except JSError String × Session :=
  let (sourceLang, s) := resolveSource w e.detect text s
  let targetLang := s.targetLanguage
  if sourceLang = .str targetLang then (.ok text, s)
  else
    match checkAvailability w e sourceLang targetLang s with
    | (.error err, s) => (.error err, s)
    | (.ok (), s) =>
      let (translation, s) := translateWithEngine w e sourceLang targetLang text s
      (.ok translation, s)

/-- Lines 203-207: detection for the label of the `auto` option. -/
def detectForLabel (w : Window) (e : DetectEnv) (text : String) (s : Session) :
    Session :=
  if s.sourceLanguage = "auto" then
    let (detectedLanguage, s) := detectLanguage w e text s
    updateDetectedLanguage detectedLanguage s
  else s

/-- Lines 194-225. -/
def translate (w : Window) (e : TranslateEnv) (s : Session) :
    Except JSError Unit × Session :=
  let text := jsTrim s.inputText
  if text = "" then
    (.ok (), s.writeOutput "")
  else
    let s := s.writeOutput translatingStatus
    let s := detectForLabel w e.detect text s
    match getTranslation w e.request text s with
    | (.ok translation, s) => (.ok (), s.writeOutput translation)
    | (.error _, s) =>
      let s := s.logConsole "Error al obtener los idiomas:"
      let (hasSupport, s) := checkAPISupport w s
      if !hasSupport.truthy then
        (.ok (), s.writeOutput capabilityMissingMessage)
      else
        (.ok (), s.writeOutput genericFailureMessage)

/-- Lines 229-234: an `auto` source selection is replaced by the detected
language; the slot stores its string form. -/
def resolveAutoSource (w : Window) (e : DetectEnv) (s : Session) : Session :=
  if s.sourceLanguage = "auto" then
    let (detectedLanguage, s) := detectLanguage w e (jsTrim s.inputText) s
    { s with sourceLanguage := detectedLanguage.toJSString }
  else s

/-- Lines 236-249: exchange the selector values, move the output into the
input, and translate again when the new input is not blank.  The call of line
248 is not awaited; it is run to completion here and its outcome does not
reach the caller. -/
def exchangeLanguages (w : Window) (e : TranslateEnv) (s : Session) : Session :=
  let temp := s.sourceLanguage
  let s := { s with sourceLanguage := s.targetLanguage }
  let s := { s with targetLanguage := temp }
  let s := { s with inputText := s.outputText }
  let s := s.writeOutput ""
  let s := updateCharCount s
  if jsTrim s.inputText ≠ "" then (translate w e s).2
  else s

/-- Lines 227-252. -/
def swapLanguages (w : Window) (e : SwapEnv) (s : Session) : Session :=
  exchangeLanguages w e.translate (resolveAutoSource w e.detect s)

/-- The value bound to `sourceLang` (line 135) in the `getTranslation` call
that `translate` makes at line 211. -/
def translateSourceLang (w : Window) (e : TranslateEnv) (s : Session) : JSVal :=
  let text := jsTrim s.inputText
  (resolveSource w e.request.detect text
    (detectForLabel w e.detect text (s.writeOutput translatingStatus))).1

/-! ## Frame relation -/

/-- A step that leaves the selector values, the texts, the output history and
the engine cache alone, and whose capability calls all satisfy `p`. -/
structure Quiet (p : Call → Bool) (s t : Session) : Prop where
  sourceLanguage : t.sourceLanguage = s.sourceLanguage
  targetLanguage : t.targetLanguage = s.targetLanguage
  inputText : t.inputText = s.inputText
  outputText : t.outputText = s.outputText
  outputWrites : t.outputWrites = s.outputWrites
  currentTranslator : t.currentTranslator = s.currentTranslator
  currentTranslatorKey : t.currentTranslatorKey = s.currentTranslatorKey
  calls : ∃ new, t.calls = s.calls ++ new ∧ ∀ c ∈ new, p c = true

/-- The selector values and the input text of two sessions agree. -/
def SameSelectors (s t : Session) : Prop :=
  t.sourceLanguage = s.sourceLanguage ∧ t.targetLanguage = s.targetLanguage ∧
    t.inputText = s.inputText

/-! ## Timers and debouncing -/

/-- A timer of the host: its id and the time (ms) at which it is due. -/
structure PendingTimer where
  id : Nat
  due : Nat
  deriving DecidableEq, Repr

/-- The timer queue of the host behind `setTimeout` and `clearTimeout`, with
time in milliseconds.  `fired` lists the callbacks that have run, each with
the time at which it ran; the only callback the program ever schedules is
`() => this.translate()` (lines 110-112), so every entry is one translation
trigger. -/
structure TimerHost where
  now : Nat
  nextId : Nat
  pending : List PendingTimer
  fired : List PendingTimer
  deriving DecidableEq, Repr

/-- The host function `clearTimeout(id)`; `null` and unknown ids are ignored. -/
def clearTimeout (id : Option Nat) (h : TimerHost) : TimerHost :=
  match id with
  | none => h
  | some i => { h with pending := h.pending.filter (fun t => t.id != i) }

/-- The host function `setTimeout(callback, delay)`: returns a fresh id. -/
def setTimeout (delay : Nat) (h : TimerHost) : Nat × TimerHost :=
  (h.nextId,
    { h with nextId := h.nextId + 1,
             pending := h.pending ++ [⟨h.nextId, h.now + delay⟩] })

/-- Let `dt` milliseconds pass: every pending timer whose due time is reached
runs its callback, at its due time. -/
def advance (dt : Nat) (h : TimerHost) : TimerHost :=
  { h with now := h.now + dt,
           pending := h.pending.filter (fun t => h.now + dt < t.due),
           fired := h.fired ++ h.pending.filter (fun t => t.due ≤ h.now + dt) }

/-- Lines 108-113. -/
def debounceTranslate (h : TimerHost) (s : Session) : TimerHost × Session :=
  let h := clearTimeout s.translationTimeout h
  let (id, h) := setTimeout 500 h
  (h, { s with translationTimeout := some id })

/-- The states right after each call of a burst of `debounceTranslate` calls:
`st` is the state after the first call, and before each further call the given
gap (ms) passes. -/
def burstStates : List Nat → TimerHost × Session → List (TimerHost × Session)
  | [], st => [st]
  | gap :: gaps, st => st :: burstStates gaps (debounceTranslate (advance gap st.1) st.2)

/-- The state right after the last call of a burst. -/
def burstEnd : List Nat → TimerHost × Session → TimerHost × Session
  | [], st => st
  | gap :: gaps, st => burstEnd gaps (debounceTranslate (advance gap st.1) st.2)

/-- The timer queue at page load: nothing scheduled. -/
def TimerHost.initial : TimerHost :=
  { now := 0, nextId := 1, pending := [], fired := [] }

/-! ## Concrete hosts and sessions -/

/-- A host offering both capabilities. -/
def fullWindow : Window := ⟨true, true⟩

/-- A host without the detection capability. -/
def noDetectorWindow : Window := ⟨true, false⟩

/-- A detector whose top-ranked result is the undetermined code. -/
def detectsUnd : DetectEnv :=
  { create := .ok 7, detect := fun _ _ => .ok [⟨"und"⟩] }

/-- A detector whose top-ranked result is Spanish. -/
def detectsEs : DetectEnv :=
  { create := .ok 7, detect := fun _ _ => .ok [⟨"es"⟩, ⟨"pt"⟩] }

/-- A detector whose `detect` call rejects. -/
def detectFails : DetectEnv :=
  { create := .ok 7, detect := fun _ _ => .error ⟨"NotSupportedError"⟩ }

/-- A translation capability that reports every pair unavailable. -/
def unavailableHost : RequestEnv :=
  { detect := detectsEs
    availability := fun _ _ => .ok "unavailable"
    create := fun _ _ => ⟨[], .ok 1⟩
    engineTranslate := fun _ text => .ok ("[" ++ text ++ "]") }

/-- A translation capability that works: creation yields engine 1 after two
progress events, and an engine brackets the text. -/
def workingHost : RequestEnv :=
  { detect := detectsEs
    availability := fun _ _ => .ok "available"
    create := fun _ _ => ⟨[0, 100], .ok 1⟩
    engineTranslate := fun _ text => .ok ("[" ++ text ++ "]") }

/-- A translation capability whose engines fail on every text. -/
def brokenEngineHost : RequestEnv :=
  { workingHost with engineTranslate := fun _ _ => .error ⟨"UnknownError"⟩ }

/-- Source `es`, target `en`, input `Hola`. -/
def holaSession : Session :=
  { Session.initial with sourceLanguage := "es", inputText := "Hola" }

/-- Source and target both `en`, input with a leading blank. -/
def paddedSession : Session :=
  { Session.initial with sourceLanguage := "en", inputText := " Hola" }

/-- Whitespace-only input. -/
def blankSession : Session :=
  { Session.initial with inputText := " \t\n" }

/-- A translation capability whose engine creation rejects. -/
def brokenCreateHost : RequestEnv :=
  { workingHost with create := fun _ _ => ⟨[40], .error ⟨"NotAllowedError"⟩⟩ }

/-- A working translation capability that hands out engine 1 for target `en`
and engine 2 for every other target. -/
def twoEngineHost : RequestEnv :=
  { workingHost with create := fun _ tgt => ⟨[], .ok (if tgt = "en" then 1 else 2)⟩ }

/-- Source `zh-Hant`, target `en`, input `Hola`. -/
def hyphenSession : Session :=
  { Session.initial with sourceLanguage := "zh-Hant", inputText := "Hola" }

/-- The session after one request for the pair (`zh-Hant`, `en`) and a change
of both selectors to the pair (`zh`, `Hant-en`). -/
def reselectedSession : Session :=
  { (getTranslation fullWindow twoEngineHost "Hola" hyphenSession).2 with
    sourceLanguage := "zh", targetLanguage := "Hant-en" }

/-- The session after one request for the pair (`es`, `en`) on the working
host, then with the selectors changed to (`fr`, `en`). -/
def frenchSession : Session :=
  { (getTranslation fullWindow workingHost "Hola" holaSession).2 with
    sourceLanguage := "fr" }

/-- Source `auto`, target `en`, input `Hola`, output `Hello`. -/
def autoSession : Session :=
  { Session.initial with inputText := "Hola", outputText := "Hello" }

/-! ## Frame lemmas -/

theorem Quiet.refl (p : Call → Bool) (s : Session) : Quiet p s s :=
  ⟨rfl, rfl, rfl, rfl, rfl, rfl, rfl, [], by simp⟩

theorem Quiet.trans {p : Call → Bool} {s t u : Session} (h₁ : Quiet p s t)
    (h₂ : Quiet p t u) : Quiet p s u := by
  obtain ⟨n₁, hn₁, hd₁⟩ := h₁.calls
  obtain ⟨n₂, hn₂, hd₂⟩ := h₂.calls
  refine ⟨h₂.sourceLanguage.trans h₁.sourceLanguage, h₂.targetLanguage.trans h₁.targetLanguage,
    h₂.inputText.trans h₁.inputText, h₂.outputText.trans h₁.outputText,
    h₂.outputWrites.trans h₁.outputWrites, h₂.currentTranslator.trans h₁.currentTranslator,
    h₂.currentTranslatorKey.trans h₁.currentTranslatorKey, n₁ ++ n₂, ?_, ?_⟩
  · rw [hn₂, hn₁, List.append_assoc]
  · intro c hc
    rcases List.mem_append.mp hc with h | h
    · exact hd₁ c h
    · exact hd₂ c h

theorem Quiet.mono {p q : Call → Bool} {s t : Session} (h : Quiet p s t)
    (hpq : ∀ c, p c = true → q c = true) : Quiet q s t := by
  obtain ⟨n, hn, hd⟩ := h.calls
  exact ⟨h.sourceLanguage, h.targetLanguage, h.inputText, h.outputText, h.outputWrites,
    h.currentTranslator, h.currentTranslatorKey, n, hn, fun c hc => hpq c (hd c hc)⟩

theorem Quiet.logConsole (p : Call → Bool) (s : Session) (m : String) :
    Quiet p s (s.logConsole m) :=
  ⟨rfl, rfl, rfl, rfl, rfl, rfl, rfl, [], by simp [Session.logConsole]⟩

theorem Quiet.logCall (p : Call → Bool) (s : Session) (c : Call) (hc : p c = true) :
    Quiet p s (s.logCall c) :=
  ⟨rfl, rfl, rfl, rfl, rfl, rfl, rfl, [c], rfl, by simpa using hc⟩

theorem Quiet.setDetector (p : Call → Bool) (s : Session) (d : Option Handle) :
    Quiet p s { s with currentDetector := d } :=
  ⟨rfl, rfl, rfl, rfl, rfl, rfl, rfl, [], by simp⟩

theorem acquireDetector_quiet (w : Window) (e : DetectEnv) (s : Session) :
    Quiet Call.isDetection s (acquireDetector w e s).2 := by
  unfold acquireDetector
  split
  · exact Quiet.refl _ s
  · split
    · dsimp only
      split
      · exact (Quiet.logCall _ s (.detectorCreate _) rfl).trans (Quiet.setDetector _ _ _)
      · exact Quiet.logCall _ s (.detectorCreate _) rfl
    · exact Quiet.refl _ s

theorem detectLanguage_quiet (w : Window) (e : DetectEnv) (text : String) (s : Session) :
    Quiet Call.isDetection s (detectLanguage w e text s).2 := by
  have h := acquireDetector_quiet w e s
  unfold detectLanguage
  split
  · next s₁ heq =>
    rw [heq] at h
    exact h.trans (Quiet.logConsole _ _ _)
  · next d s₁ heq =>
    rw [heq] at h
    have hc : Quiet Call.isDetection s₁ (s₁.logCall (.detect d text)) :=
      Quiet.logCall _ s₁ (.detect d text) rfl
    dsimp only
    split
    · exact (h.trans hc).trans (Quiet.logConsole _ _ _)
    · split <;> exact h.trans hc

theorem updateDetectedLanguage_quiet (p : Call → Bool) (d : JSVal) (s : Session) :
    Quiet p s (updateDetectedLanguage d s) := by
  unfold updateDetectedLanguage
  dsimp only
  split
  · exact ⟨rfl, rfl, rfl, rfl, rfl, rfl, rfl, [], by simp⟩
  · exact Quiet.logConsole _ _ _

theorem detectForLabel_quiet (w : Window) (e : DetectEnv) (text : String) (s : Session) :
    Quiet Call.isDetection s (detectForLabel w e text s) := by
  unfold detectForLabel
  split
  · exact (detectLanguage_quiet w e text s).trans (updateDetectedLanguage_quiet _ _ _)
  · exact Quiet.refl _ s

theorem resolveSource_quiet (w : Window) (e : DetectEnv) (text : String) (s : Session) :
    Quiet Call.isDetection s (resolveSource w e text s).2 := by
  unfold resolveSource
  split
  · exact detectLanguage_quiet w e text s
  · exact Quiet.refl _ s

/-! ## Computation lemmas for `getTranslation` and `translate` -/

theorem getTranslation_same (w : Window) (e : RequestEnv) (text : String) (s : Session)
    (h : (resolveSource w e.detect text s).1 = .str s.targetLanguage) :
    getTranslation w e text s = (.ok text, (resolveSource w e.detect text s).2) := by
  have ht := (resolveSource_quiet w e.detect text s).targetLanguage
  unfold getTranslation
  simp only [ht, h, if_true]

theorem getTranslation_differ (w : Window) (e : RequestEnv) (text : String) (s : Session)
    (h : (resolveSource w e.detect text s).1 ≠ .str s.targetLanguage) :
    getTranslation w e text s =
      match checkAvailability w e (resolveSource w e.detect text s).1 s.targetLanguage
          (resolveSource w e.detect text s).2 with
      | (.error err, s₁) => (.error err, s₁)
      | (.ok (), s₁) =>
        ((.ok (translateWithEngine w e (resolveSource w e.detect text s).1 s.targetLanguage
            text s₁).1,
          (translateWithEngine w e (resolveSource w e.detect text s).1 s.targetLanguage
            text s₁).2) : Except JSError String × Session) := by
  have ht := (resolveSource_quiet w e.detect text s).targetLanguage
  unfold getTranslation
  simp only [ht, h, if_false]

theorem translate_nonblank (w : Window) (e : TranslateEnv) (s : Session)
    (h : jsTrim s.inputText ≠ "") :
    translate w e s =
      match getTranslation w e.request (jsTrim s.inputText)
          (detectForLabel w e.detect (jsTrim s.inputText) (s.writeOutput translatingStatus)) with
      | (.ok translation, s₁) => (.ok (), s₁.writeOutput translation)
      | (.error _, s₁) =>
        if !(checkAPISupport w (s₁.logConsole "Error al obtener los idiomas:")).1.truthy then
          (.ok (), (checkAPISupport w (s₁.logConsole "Error al obtener los idiomas:")).2.writeOutput
            capabilityMissingMessage)
        else
          (.ok (), (checkAPISupport w (s₁.logConsole "Error al obtener los idiomas:")).2.writeOutput
            genericFailureMessage) := by
  unfold translate
  simp only [h, if_false]

theorem checkAPISupport_undefined (w : Window) (s : Session) :
    (checkAPISupport w s).1 = .undefined := by
  unfold checkAPISupport
  dsimp only
  split <;> rfl

theorem checkAPISupport_quiet (p : Call → Bool) (w : Window) (s : Session) :
    Quiet p s (checkAPISupport w s).2 := by
  unfold checkAPISupport
  dsimp only
  split <;> exact ⟨rfl, rfl, rfl, rfl, rfl, rfl, rfl, [], by simp [Session.logConsole]⟩

theorem checkAvailability_quiet (w : Window) (e : RequestEnv) (src : JSVal) (tgt : String)
    (s : Session) : Quiet Call.isAvailability s (checkAvailability w e src tgt s).2 := by
  have hc := Quiet.logCall Call.isAvailability s (.availability src tgt) rfl
  unfold checkAvailability
  dsimp only
  split
  · next heq =>
    split at heq
    · split at heq
      · split at heq <;> (injection heq with _ h2; subst h2; exact hc)
      · injection heq with _ h2; subst h2; exact hc
    · injection heq with _ h2; subst h2; exact Quiet.refl _ s
  · next heq =>
    split at heq
    · split at heq
      · split at heq <;>
          (injection heq with _ h2; subst h2; exact hc.trans (Quiet.logConsole _ _ _))
      · injection heq with _ h2; subst h2; exact hc.trans (Quiet.logConsole _ _ _)
    · injection heq with _ h2; subst h2; exact Quiet.logConsole _ _ _

theorem checkAvailability_ok (w : Window) (e : RequestEnv) (src : JSVal) (tgt : String)
    (s : Session) (status : String) (hw : w.hasTranslator = true)
    (ha : e.availability src tgt = .ok status) (hs : status ≠ "unavailable") :
    checkAvailability w e src tgt s = (.ok (), s.logCall (.availability src tgt)) := by
  unfold checkAvailability
  simp only [hw, ha, hs, if_true, if_false]

theorem checkAvailability_unavailable (w : Window) (e : RequestEnv) (src : JSVal)
    (tgt : String) (s : Session) (hw : w.hasTranslator = true)
    (ha : e.availability src tgt = .ok "unavailable") :
    checkAvailability w e src tgt s =
      (.error ⟨availabilityCheckMessage⟩,
        (s.logCall (.availability src tgt)).logConsole
          "Error al verificar la disponibilidad de la traducción:") := by
  unfold checkAvailability
  simp only [hw, ha, if_true]

theorem checkAvailability_fails (w : Window) (e : RequestEnv) (src : JSVal) (tgt : String)
    (s : Session)
    (h : w.hasTranslator = false ∨ e.availability src tgt = .ok "unavailable" ∨
      ∃ err, e.availability src tgt = .error err) :
    (checkAvailability w e src tgt s).1 = .error ⟨availabilityCheckMessage⟩ := by
  unfold checkAvailability
  cases hw : w.hasTranslator
  · simp
  · rcases h with h | h | ⟨err, h⟩
    · rw [hw] at h; cases h
    · simp [h]
    · simp [h]

theorem reportProgress_frame (progress : List Nat) (s : Session) :
    (reportProgress progress s).calls = s.calls ∧
    (reportProgress progress s).currentTranslator = s.currentTranslator ∧
    (reportProgress progress s).currentTranslatorKey = s.currentTranslatorKey := by
  unfold reportProgress
  induction progress generalizing s with
  | nil => exact ⟨rfl, rfl, rfl⟩
  | cons p ps ih =>
    rw [List.foldl_cons]
    obtain ⟨h1, h2, h3⟩ := ih (s.writeOutput (downloadStatus p))
    exact ⟨h1, h2, h3⟩

theorem translateWithEngine_hit (w : Window) (e : RequestEnv) (src : JSVal) (tgt text : String)
    (s : Session) (h : Handle) (ht : s.currentTranslator = some h)
    (hk : s.currentTranslatorKey = some (translationKey src tgt)) :
    (translateWithEngine w e src tgt text s).1 =
      (match e.engineTranslate h text with
        | .ok translation => translation
        | .error _ => genericFailureMessage) ∧
    (translateWithEngine w e src tgt text s).2.currentTranslator = some h ∧
    (translateWithEngine w e src tgt text s).2.currentTranslatorKey =
      some (translationKey src tgt) ∧
    (translateWithEngine w e src tgt text s).2.calls = s.calls ++ [.engineTranslate h text] := by
  unfold translateWithEngine
  simp only [needsNewEngine, ht, hk, Option.isNone_some, bne_self_eq_false, Bool.or_self,
    Bool.false_eq_true, if_false]
  cases e.engineTranslate h text <;> simp [Session.logCall, Session.logConsole]

theorem translateWithEngine_miss_ok (w : Window) (e : RequestEnv) (src : JSVal)
    (tgt text : String) (s : Session) (h : Handle) (hw : w.hasTranslator = true)
    (hm : needsNewEngine s (translationKey src tgt) = true)
    (hc : (e.create src tgt).result = .ok h) :
    (translateWithEngine w e src tgt text s).1 =
      (match e.engineTranslate h text with
        | .ok translation => translation
        | .error _ => genericFailureMessage) ∧
    (translateWithEngine w e src tgt text s).2.currentTranslator = some h ∧
    (translateWithEngine w e src tgt text s).2.currentTranslatorKey =
      some (translationKey src tgt) ∧
    (translateWithEngine w e src tgt text s).2.calls =
      s.calls ++ [.create src tgt, .engineTranslate h text] := by
  obtain ⟨p1, -, -⟩ := reportProgress_frame (e.create src tgt).progress
    (s.logCall (.create src tgt))
  unfold translateWithEngine createEngine
  simp only [hm, hw, hc, if_true]
  simp only [Session.logCall] at p1 ⊢
  cases e.engineTranslate h text <;> simp [Session.logConsole, p1]

theorem translateWithEngine_miss_error (w : Window) (e : RequestEnv) (src : JSVal)
    (tgt text : String) (s : Session) (hw : w.hasTranslator = true)
    (hm : needsNewEngine s (translationKey src tgt) = true) (err : JSError)
    (hc : (e.create src tgt).result = .error err) :
    (translateWithEngine w e src tgt text s).1 = genericFailureMessage ∧
    (translateWithEngine w e src tgt text s).2.currentTranslator = s.currentTranslator ∧
    (translateWithEngine w e src tgt text s).2.currentTranslatorKey = s.currentTranslatorKey ∧
    (translateWithEngine w e src tgt text s).2.calls = s.calls ++ [.create src tgt] := by
  obtain ⟨p1, p2, p3⟩ := reportProgress_frame (e.create src tgt).progress
    (s.logCall (.create src tgt))
  unfold translateWithEngine createEngine
  simp only [hm, hw, hc, if_true]
  simp only [Session.logCall] at p1 p2 p3 ⊢
  simp [Session.logConsole, p1, p2, p3]

theorem getTranslation_of_check_error (w : Window) (e : RequestEnv) (text : String)
    (s : Session) (h : (resolveSource w e.detect text s).1 ≠ .str s.targetLanguage)
    (err : JSError) (s₁ : Session)
    (hca : checkAvailability w e (resolveSource w e.detect text s).1 s.targetLanguage
      (resolveSource w e.detect text s).2 = (.error err, s₁)) :
    getTranslation w e text s = (.error err, s₁) := by
  rw [getTranslation_differ w e text s h, hca]

theorem getTranslation_of_check_ok (w : Window) (e : RequestEnv) (text : String)
    (s : Session) (h : (resolveSource w e.detect text s).1 ≠ .str s.targetLanguage)
    (s₁ : Session)
    (hca : checkAvailability w e (resolveSource w e.detect text s).1 s.targetLanguage
      (resolveSource w e.detect text s).2 = (.ok (), s₁)) :
    getTranslation w e text s =
      (.ok (translateWithEngine w e (resolveSource w e.detect text s).1 s.targetLanguage
          text s₁).1,
        (translateWithEngine w e (resolveSource w e.detect text s).1 s.targetLanguage
          text s₁).2) := by
  rw [getTranslation_differ w e text s h, hca]

theorem translate_of_error (w : Window) (e : TranslateEnv) (s : Session)
    (hne : jsTrim s.inputText ≠ "") (err : JSError) (s₁ : Session)
    (hg : getTranslation w e.request (jsTrim s.inputText)
      (detectForLabel w e.detect (jsTrim s.inputText) (s.writeOutput translatingStatus)) =
        (.error err, s₁)) :
    translate w e s =
      (.ok (), (checkAPISupport w (s₁.logConsole "Error al obtener los idiomas:")).2.writeOutput
        capabilityMissingMessage) := by
  rw [translate_nonblank w e s hne, hg]
  dsimp only
  rw [checkAPISupport_undefined]
  rfl

theorem translate_of_ok (w : Window) (e : TranslateEnv) (s : Session)
    (hne : jsTrim s.inputText ≠ "") (translation : String) (s₁ : Session)
    (hg : getTranslation w e.request (jsTrim s.inputText)
      (detectForLabel w e.detect (jsTrim s.inputText) (s.writeOutput translatingStatus)) =
        (.ok translation, s₁)) :
    translate w e s = (.ok (), s₁.writeOutput translation) := by
  rw [translate_nonblank w e s hne, hg]

theorem Quiet.sameSelectors {p : Call → Bool} {s t : Session} (h : Quiet p s t) :
    SameSelectors s t :=
  ⟨h.sourceLanguage, h.targetLanguage, h.inputText⟩

theorem SameSelectors.andThen {s t u : Session} (h₁ : SameSelectors s t)
    (h₂ : SameSelectors t u) : SameSelectors s u :=
  ⟨h₂.1.trans h₁.1, h₂.2.1.trans h₁.2.1, h₂.2.2.trans h₁.2.2⟩

theorem reportProgress_sameSelectors (progress : List Nat) (s : Session) :
    SameSelectors s (reportProgress progress s) := by
  unfold reportProgress
  induction progress generalizing s with
  | nil => exact ⟨rfl, rfl, rfl⟩
  | cons p ps ih =>
    rw [List.foldl_cons]
    exact SameSelectors.andThen ⟨rfl, rfl, rfl⟩ (ih (s.writeOutput (downloadStatus p)))

theorem createEngine_sameSelectors (w : Window) (e : RequestEnv) (src : JSVal)
    (tgt : String) (s : Session) : SameSelectors s (createEngine w e src tgt s).2 := by
  have hp := reportProgress_sameSelectors (e.create src tgt).progress
    (s.logCall (.create src tgt))
  unfold createEngine
  split
  · dsimp only
    split
    · exact SameSelectors.andThen ⟨rfl, rfl, rfl⟩ (hp.andThen ⟨rfl, rfl, rfl⟩)
    · exact SameSelectors.andThen ⟨rfl, rfl, rfl⟩ hp
  · exact ⟨rfl, rfl, rfl⟩

theorem translateWithEngine_sameSelectors (w : Window) (e : RequestEnv) (src : JSVal)
    (tgt text : String) (s : Session) :
    SameSelectors s (translateWithEngine w e src tgt text s).2 := by
  have hc := createEngine_sameSelectors w e src tgt s
  unfold translateWithEngine
  dsimp only
  split
  · next s₁ heq =>
    split at heq
    · rw [heq] at hc; exact hc.andThen ⟨rfl, rfl, rfl⟩
    · injection heq with _ h2; subst h2; exact ⟨rfl, rfl, rfl⟩
  · next s₁ heq =>
    have hs : SameSelectors s s₁ := by
      split at heq
      · rw [heq] at hc; exact hc
      · injection heq with _ h2; subst h2; exact ⟨rfl, rfl, rfl⟩
    split
    · exact hs.andThen ⟨rfl, rfl, rfl⟩
    · split <;> exact hs.andThen ⟨rfl, rfl, rfl⟩

theorem getTranslation_sameSelectors (w : Window) (e : RequestEnv) (text : String)
    (s : Session) : SameSelectors s (getTranslation w e text s).2 := by
  have q := (resolveSource_quiet w e.detect text s).sameSelectors
  by_cases h : (resolveSource w e.detect text s).1 = .str s.targetLanguage
  · rw [getTranslation_same w e text s h]; exact q
  · have q3 := (checkAvailability_quiet w e (resolveSource w e.detect text s).1
      s.targetLanguage (resolveSource w e.detect text s).2).sameSelectors
    rcases hca : checkAvailability w e (resolveSource w e.detect text s).1 s.targetLanguage
      (resolveSource w e.detect text s).2 with ⟨r, s₁⟩
    rw [hca] at q3
    cases r with
    | error err =>
      rw [getTranslation_of_check_error w e text s h err s₁ hca]
      exact q.andThen q3
    | ok u =>
      rw [getTranslation_of_check_ok w e text s h s₁ hca]
      exact (q.andThen q3).andThen (translateWithEngine_sameSelectors _ _ _ _ _ _)

theorem translate_sameSelectors (w : Window) (e : TranslateEnv) (s : Session) :
    SameSelectors s (translate w e s).2 := by
  by_cases hne : jsTrim s.inputText = ""
  · unfold translate
    rw [if_pos hne]
    exact ⟨rfl, rfl, rfl⟩
  · have q1 := (detectForLabel_quiet w e.detect (jsTrim s.inputText)
      (s.writeOutput translatingStatus)).sameSelectors
    have q2 := getTranslation_sameSelectors w e.request (jsTrim s.inputText)
      (detectForLabel w e.detect (jsTrim s.inputText) (s.writeOutput translatingStatus))
    have q0 : SameSelectors s (s.writeOutput translatingStatus) := ⟨rfl, rfl, rfl⟩
    rcases hg : getTranslation w e.request (jsTrim s.inputText)
      (detectForLabel w e.detect (jsTrim s.inputText) (s.writeOutput translatingStatus))
      with ⟨r, s₁⟩
    rw [hg] at q2
    cases r with
    | error err =>
      rw [translate_of_error w e s hne err s₁ hg]
      have q4 := (checkAPISupport_quiet Call.isDetection w
        (s₁.logConsole "Error al obtener los idiomas:")).sameSelectors
      exact (((q0.andThen q1).andThen q2).andThen ⟨rfl, rfl, rfl⟩).andThen
        (q4.andThen ⟨rfl, rfl, rfl⟩)
    | ok translation =>
      rw [translate_of_ok w e s hne translation s₁ hg]
      exact ((q0.andThen q1).andThen q2).andThen ⟨rfl, rfl, rfl⟩

theorem getTranslation_available (w : Window) (e : RequestEnv) (text : String)
    (s : Session) (src : JSVal) (status : String) (hw : w.hasTranslator = true)
    (hsrc : (resolveSource w e.detect text s).1 = src)
    (hdiff : src ≠ .str s.targetLanguage)
    (hav : e.availability src s.targetLanguage = .ok status)
    (hst : status ≠ "unavailable") :
    getTranslation w e text s =
      (.ok (translateWithEngine w e src s.targetLanguage text
          ((resolveSource w e.detect text s).2.logCall
            (.availability src s.targetLanguage))).1,
        (translateWithEngine w e src s.targetLanguage text
          ((resolveSource w e.detect text s).2.logCall
            (.availability src s.targetLanguage))).2) := by
  have hca := checkAvailability_ok w e src s.targetLanguage
    (resolveSource w e.detect text s).2 status hw hav hst
  rw [← hsrc] at hca
  rw [getTranslation_of_check_ok w e text s (by rw [hsrc]; exact hdiff) _ hca, hsrc]

theorem needsNewEngine_false (s : Session) (key : String)
    (h : needsNewEngine s key = false) :
    ∃ h₀, s.currentTranslator = some h₀ ∧ s.currentTranslatorKey = some key := by
  unfold needsNewEngine at h
  rw [Bool.or_eq_false_iff] at h
  obtain ⟨h1, h2⟩ := h
  cases hc : s.currentTranslator with
  | none => rw [hc] at h1; cases h1
  | some h₀ =>
    refine ⟨h₀, rfl, ?_⟩
    simpa using h2

theorem needsNewEngine_congr (s t : Session) (key : String)
    (h₁ : t.currentTranslator = s.currentTranslator)
    (h₂ : t.currentTranslatorKey = s.currentTranslatorKey) :
    needsNewEngine t key = needsNewEngine s key := by
  unfold needsNewEngine
  rw [h₁, h₂]

theorem updateCharCount_sameSelectors (s : Session) :
    SameSelectors s (updateCharCount s) := by
  unfold updateCharCount
  dsimp only
  split <;> exact ⟨rfl, rfl, rfl⟩

theorem exchangeLanguages_spec (w : Window) (e : TranslateEnv) (s : Session) :
    (exchangeLanguages w e s).sourceLanguage = s.targetLanguage ∧
    (exchangeLanguages w e s).targetLanguage = s.sourceLanguage ∧
    (exchangeLanguages w e s).inputText = s.outputText := by
  have hu := updateCharCount_sameSelectors
    (({ s with sourceLanguage := s.targetLanguage, targetLanguage := s.sourceLanguage,
               inputText := s.outputText } : Session).writeOutput "")
  unfold exchangeLanguages
  dsimp only
  split
  · exact hu.andThen (translate_sameSelectors _ _ _)
  · exact hu

/-! ## Debounce lemmas -/

theorem debounceTranslate_first (h : TimerHost) (s : Session)
    (hinv : ∀ t ∈ h.pending, s.translationTimeout = some t.id) :
    (debounceTranslate h s).2.translationTimeout = some h.nextId ∧
    (debounceTranslate h s).1.pending = [⟨h.nextId, h.now + 500⟩] ∧
    (debounceTranslate h s).1.fired = h.fired ∧
    (debounceTranslate h s).1.now = h.now := by
  unfold debounceTranslate setTimeout clearTimeout
  cases hto : s.translationTimeout with
  | none =>
    have hnil : h.pending = [] := by
      cases hp : h.pending with
      | nil => rfl
      | cons t ts =>
        have := hinv t (by rw [hp]; exact List.mem_cons_self _ _)
        rw [hto] at this
        cases this
    simp [hnil]
  | some i =>
    have hnil : h.pending.filter (fun t => t.id != i) = [] := by
      rw [List.filter_eq_nil_iff]
      intro t ht
      have := hinv t ht
      rw [hto] at this
      injection this with this
      simp [this]
    simp [hnil]

theorem advance_before_due (h : TimerHost) (id dt : Nat)
    (hp : h.pending = [⟨id, h.now + 500⟩]) (hdt : dt < 500) :
    (advance dt h).pending = [⟨id, h.now + 500⟩] ∧ (advance dt h).fired = h.fired ∧
    (advance dt h).now = h.now + dt ∧ (advance dt h).nextId = h.nextId := by
  unfold advance
  simp [hp, hdt]

theorem advance_after_due (h : TimerHost) (id dt : Nat)
    (hp : h.pending = [⟨id, h.now + 500⟩]) (hdt : 500 ≤ dt) :
    (advance dt h).pending = [] ∧ (advance dt h).fired = h.fired ++ [⟨id, h.now + 500⟩] := by
  unfold advance
  simp [hp, hdt]

theorem advance_pending_length (h : TimerHost) (dt : Nat) :
    (advance dt h).pending.length ≤ h.pending.length := by
  unfold advance
  exact List.length_filter_le _ _

theorem debounceTranslate_next (st : TimerHost × Session) (id gap : Nat)
    (hto : st.2.translationTimeout = some id)
    (hp : st.1.pending = [⟨id, st.1.now + 500⟩]) (hgap : gap < 500) :
    (debounceTranslate (advance gap st.1) st.2).2.translationTimeout = some st.1.nextId ∧
    (debounceTranslate (advance gap st.1) st.2).1.pending =
      [⟨st.1.nextId, (debounceTranslate (advance gap st.1) st.2).1.now + 500⟩] ∧
    (debounceTranslate (advance gap st.1) st.2).1.fired = st.1.fired := by
  obtain ⟨a1, a2, a3, a4⟩ := advance_before_due st.1 id gap hp hgap
  have := debounceTranslate_first (advance gap st.1) st.2 (by
    intro t ht
    rw [a1, List.mem_singleton] at ht
    rw [ht, hto])
  rw [a4, a2] at this
  exact ⟨this.1, by rw [this.2.1, this.2.2.2], this.2.2.1⟩

theorem burst_invariant (gaps : List Nat) (st : TimerHost × Session) (id : Nat)
    (hto : st.2.translationTimeout = some id)
    (hp : st.1.pending = [⟨id, st.1.now + 500⟩])
    (hgaps : ∀ g ∈ gaps, g < 500) :
    (∀ x ∈ burstStates gaps st, x.1.pending.length ≤ 1) ∧
    (burstEnd gaps st).1.fired = st.1.fired ∧
    (burstEnd gaps st).1.now = st.1.now + gaps.sum ∧
    ∃ last, (burstEnd gaps st).2.translationTimeout = some last ∧
      (burstEnd gaps st).1.pending = [⟨last, (burstEnd gaps st).1.now + 500⟩] := by
  induction gaps generalizing st id with
  | nil =>
    refine ⟨?_, rfl, by simp [burstEnd], id, hto, hp⟩
    intro x hx
    simp only [burstStates, List.mem_singleton] at hx
    rw [hx, hp]
    exact Nat.le_refl 1
  | cons gap gaps ih =>
    have hgap : gap < 500 := hgaps gap (List.mem_cons_self _ _)
    obtain ⟨n1, n2, n3⟩ := debounceTranslate_next st id gap hto hp hgap
    have hnow : (debounceTranslate (advance gap st.1) st.2).1.now = st.1.now + gap := by
      have := debounceTranslate_first (advance gap st.1) st.2 (by
        intro t ht
        rw [(advance_before_due st.1 id gap hp hgap).1, List.mem_singleton] at ht
        rw [ht, hto])
      rw [this.2.2.2]
      exact (advance_before_due st.1 id gap hp hgap).2.2.1
    obtain ⟨i1, i2, i3, i4⟩ := ih (debounceTranslate (advance gap st.1) st.2) st.1.nextId n1 n2
      (fun g hg => hgaps g (List.mem_cons_of_mem _ hg))
    refine ⟨?_, ?_, ?_, i4⟩
    · intro x hx
      simp only [burstStates, List.mem_cons] at hx
      rcases hx with hx | hx
      · rw [hx, hp]
        exact Nat.le_refl 1
      · exact i1 x hx
    · show (burstEnd gaps _).1.fired = _
      rw [i2, n3]
    · show (burstEnd gaps _).1.now = _
      rw [i3, hnow, List.sum_cons, Nat.add_assoc]

/-- The invariant assumed of the timer queue holds at page load and is kept
by every `debounceTranslate` call and by the passing of time. -/
theorem timer_invariant_kept (h : TimerHost) (s : Session) (dt : Nat)
    (hinv : ∀ t ∈ h.pending, s.translationTimeout = some t.id) :
    (∀ t ∈ TimerHost.initial.pending, Session.initial.translationTimeout = some t.id) ∧
    (∀ t ∈ (debounceTranslate h s).1.pending,
      (debounceTranslate h s).2.translationTimeout = some t.id) ∧
    (∀ t ∈ (advance dt h).pending, s.translationTimeout = some t.id) := by
  refine ⟨fun _ ht => (nomatch ht), ?_, ?_⟩
  · obtain ⟨f1, f2, -, -⟩ := debounceTranslate_first h s hinv
    intro t ht
    rw [f2, List.mem_singleton] at ht
    rw [f1, ht]
  · intro t ht
    exact hinv t (List.mem_of_mem_filter ht)

/-! ## The cache key -/

theorem append_separator_inj {α : Type} (x : α) (a c b d : List α) (ha : x ∉ a)
    (hc : x ∉ c) (h : a ++ x :: b = c ++ x :: d) : a = c ∧ b = d := by
  induction a generalizing c with
  | nil =>
    cases c with
    | nil => exact ⟨rfl, by simpa using h⟩
    | cons y ys =>
      simp only [List.nil_append, List.cons_append, List.cons.injEq] at h
      exact absurd (List.mem_cons.mpr (Or.inl h.1)) hc
  | cons z zs ih =>
    cases c with
    | nil =>
      simp only [List.nil_append, List.cons_append, List.cons.injEq] at h
      exact absurd (List.mem_cons.mpr (Or.inl h.1.symm)) ha
    | cons y ys =>
      simp only [List.cons_append, List.cons.injEq] at h
      obtain ⟨r1, r2⟩ := ih ys (fun hm => ha (List.mem_cons_of_mem _ hm))
        (fun hm => hc (List.mem_cons_of_mem _ hm)) h.2
      exact ⟨by rw [h.1, r1], r2⟩

/-- For source codes without a hyphen (as all of `SUPPORTED_LANGUAGES`), two
pairs have the same cache key only if they are the same pair. -/
theorem translationKey_inj (a b c d : String) (ha : '-' ∉ a.data) (hc : '-' ∉ c.data)
    (h : translationKey (.str a) b = translationKey (.str c) d) : a = c ∧ b = d := by
  unfold translationKey JSVal.toJSString at h
  have hd := congrArg String.data h
  simp only [String.data_append] at hd
  rw [List.append_assoc, List.append_assoc] at hd
  obtain ⟨r1, r2⟩ := append_separator_inj '-' a.data c.data b.data d.data ha hc hd
  exact ⟨String.ext r1, String.ext r2⟩

/-! ## The claims -/

theorem Call.quiet_of_isDetection (c : Call) (h : c.isDetection = true) :
    c.isAvailability = false ∧ c.isCreate = false ∧ c.isEngineTranslate = false := by
  cases c <;> simp_all [Call.isDetection, Call.isAvailability, Call.isCreate,
    Call.isEngineTranslate]

theorem Call.quiet_of_isAvailability (c : Call) (h : c.isAvailability = true) :
    c.isCreate = false ∧ c.isEngineTranslate = false := by
  cases c <;> simp_all [Call.isAvailability, Call.isCreate, Call.isEngineTranslate]

/-- C1 (code bug): on each fallback path of `detectLanguage` (top-ranked
result `und`, a rejected `detect`, an absent detection capability) the code
returns `undefined` and not the default source language `es`. -/
theorem detectLanguage_fallback_is_undefined :
    (detectLanguage fullWindow detectsUnd "hola" Session.initial).1 = JSVal.undefined ∧
    (detectLanguage fullWindow detectFails "hola" Session.initial).1 = JSVal.undefined ∧
    (detectLanguage noDetectorWindow detectsEs "hola" Session.initial).1 = JSVal.undefined ∧
    JSVal.undefined ≠ JSVal.str GoogleTranslator.DEFAULT_SOURCE_LANGUAGE := by
  decide

/-- C7: when the input is empty after trimming, `translate` writes the empty
string to the output and does nothing else: the only output write is the empty
string (the translating status is not written), no capability is called, and
the cached translator, its key and the cached detector are unchanged. -/
theorem translate_blank_input (w : Window) (e : TranslateEnv) (s : Session)
    (h : jsTrim s.inputText = "") :
    (translate w e s).1 = .ok () ∧
    (translate w e s).2.outputText = "" ∧
    (translate w e s).2.outputWrites = s.outputWrites ++ [""] ∧
    (translate w e s).2.calls = s.calls ∧
    (translate w e s).2.currentTranslator = s.currentTranslator ∧
    (translate w e s).2.currentTranslatorKey = s.currentTranslatorKey ∧
    (translate w e s).2.currentDetector = s.currentDetector := by
  unfold translate
  rw [if_pos h]
  exact ⟨rfl, rfl, rfl, rfl, rfl, rfl, rfl⟩

/-- Witness of C7: a whitespace-only input on a fresh session. -/
theorem translate_blank_input_witness :
    jsTrim blankSession.inputText = "" ∧
    (translate fullWindow ⟨detectsEs, workingHost⟩ blankSession).2.outputWrites = [""] ∧
    (translate fullWindow ⟨detectsEs, workingHost⟩ blankSession).2.calls = [] :=
  ⟨by decide,
    (translate_blank_input fullWindow ⟨detectsEs, workingHost⟩ blankSession (by decide)).2.2.1,
    (translate_blank_input fullWindow ⟨detectsEs, workingHost⟩ blankSession (by decide)).2.2.2.1⟩

/-- C6 as stated fails: with source and target both `en` and the input
` Hola` (leading blank), the output is `Hola`, not the input text. -/
theorem translate_same_language_not_verbatim :
    jsTrim paddedSession.inputText ≠ "" ∧
    translateSourceLang fullWindow ⟨detectsEs, workingHost⟩ paddedSession =
      .str paddedSession.targetLanguage ∧
    (translate fullWindow ⟨detectsEs, workingHost⟩ paddedSession).2.outputText = "Hola" ∧
    (translate fullWindow ⟨detectsEs, workingHost⟩ paddedSession).2.outputText ≠
      paddedSession.inputText := by
  decide

/-- C6 amended: when the input is non-empty after trimming and the resolved
source language equals the target, `translate` writes the trimmed input text
to the output, calls none of `Translator.availability`, `Translator.create`
or an engine `translate`, and leaves the cached translator and its key
unchanged. -/
theorem translate_same_language (w : Window) (e : TranslateEnv) (s : Session)
    (hne : jsTrim s.inputText ≠ "")
    (hsame : translateSourceLang w e s = .str s.targetLanguage) :
    (translate w e s).1 = .ok () ∧
    (translate w e s).2.outputText = jsTrim s.inputText ∧
    (∃ new, (translate w e s).2.calls = s.calls ++ new ∧
      ∀ c ∈ new, c.isAvailability = false ∧ c.isCreate = false ∧
        c.isEngineTranslate = false) ∧
    (translate w e s).2.currentTranslator = s.currentTranslator ∧
    (translate w e s).2.currentTranslatorKey = s.currentTranslatorKey := by
  have q1 := detectForLabel_quiet w e.detect (jsTrim s.inputText)
    (s.writeOutput translatingStatus)
  have q2 := resolveSource_quiet w e.request.detect (jsTrim s.inputText)
    (detectForLabel w e.detect (jsTrim s.inputText) (s.writeOutput translatingStatus))
  have q := q1.trans q2
  have hg := getTranslation_same w e.request (jsTrim s.inputText)
    (detectForLabel w e.detect (jsTrim s.inputText) (s.writeOutput translatingStatus))
    (by rw [q1.targetLanguage]; exact hsame)
  rw [translate_nonblank w e s hne, hg]
  obtain ⟨new, hn, hd⟩ := q.calls
  refine ⟨rfl, rfl, ⟨new, hn, fun c hc => Call.quiet_of_isDetection c (hd c hc)⟩, ?_, ?_⟩
  · exact q.currentTranslator
  · exact q.currentTranslatorKey

/-- Witness of C6 amended: source and target `en`, input with a leading blank. -/
theorem translate_same_language_witness :
    jsTrim paddedSession.inputText ≠ "" ∧
    (translate fullWindow ⟨detectsEs, workingHost⟩ paddedSession).2.outputText =
      jsTrim paddedSession.inputText :=
  ⟨by decide,
    (translate_same_language fullWindow ⟨detectsEs, workingHost⟩ paddedSession (by decide)
      (by decide)).2.1⟩

/-- C2 as stated fails: with input `Hola`, source `es`, target `en` and the
pair reported unavailable, the output ends as the capability-missing message,
not as the pair-unavailable message. -/
theorem translate_unavailable_not_pair_message :
    jsTrim holaSession.inputText ≠ "" ∧
    translateSourceLang fullWindow ⟨detectsEs, unavailableHost⟩ holaSession ≠
      .str holaSession.targetLanguage ∧
    unavailableHost.availability
      (translateSourceLang fullWindow ⟨detectsEs, unavailableHost⟩ holaSession)
      holaSession.targetLanguage = .ok "unavailable" ∧
    (translate fullWindow ⟨detectsEs, unavailableHost⟩ holaSession).2.outputText =
      capabilityMissingMessage ∧
    (translate fullWindow ⟨detectsEs, unavailableHost⟩ holaSession).2.outputText ≠
      pairUnavailableMessage :=
  ⟨by decide, by decide, rfl, by decide, by decide⟩

/-- C2 amended: when the input is non-empty after trimming, the resolved
source differs from the target, and the availability check reports
`unavailable` or fails (the capability being absent included), `translate`
ends without an error and with the output showing one of the two fixed
messages of its catch branch (capability-missing or generic failure), never
the pair-unavailable message; no engine is created or used. -/
theorem translate_availability_failure (w : Window) (e : TranslateEnv) (s : Session)
    (hne : jsTrim s.inputText ≠ "")
    (hdiff : translateSourceLang w e s ≠ .str s.targetLanguage)
    (hfail : w.hasTranslator = false ∨
      e.request.availability (translateSourceLang w e s) s.targetLanguage =
        .ok "unavailable" ∨
      ∃ err, e.request.availability (translateSourceLang w e s) s.targetLanguage =
        .error err) :
    (translate w e s).1 = .ok () ∧
    ((translate w e s).2.outputText = capabilityMissingMessage ∨
      (translate w e s).2.outputText = genericFailureMessage) ∧
    (translate w e s).2.outputText ≠ pairUnavailableMessage ∧
    (∃ new, (translate w e s).2.calls = s.calls ++ new ∧
      ∀ c ∈ new, c.isCreate = false ∧ c.isEngineTranslate = false) := by
  have q1 := detectForLabel_quiet w e.detect (jsTrim s.inputText)
    (s.writeOutput translatingStatus)
  have q2 := resolveSource_quiet w e.request.detect (jsTrim s.inputText)
    (detectForLabel w e.detect (jsTrim s.inputText) (s.writeOutput translatingStatus))
  have ht : (detectForLabel w e.detect (jsTrim s.inputText)
      (s.writeOutput translatingStatus)).targetLanguage = s.targetLanguage :=
    q1.targetLanguage
  have q3 := checkAvailability_quiet w e.request (translateSourceLang w e s) s.targetLanguage
    (resolveSource w e.request.detect (jsTrim s.inputText)
      (detectForLabel w e.detect (jsTrim s.inputText) (s.writeOutput translatingStatus))).2
  have hf := checkAvailability_fails w e.request (translateSourceLang w e s) s.targetLanguage
    (resolveSource w e.request.detect (jsTrim s.inputText)
      (detectForLabel w e.detect (jsTrim s.inputText) (s.writeOutput translatingStatus))).2
    hfail
  unfold translateSourceLang at q3 hf hdiff
  dsimp only at q3 hf hdiff
  rcases hca : checkAvailability w e.request
      (resolveSource w e.request.detect (jsTrim s.inputText)
        (detectForLabel w e.detect (jsTrim s.inputText) (s.writeOutput translatingStatus))).1
      s.targetLanguage
      (resolveSource w e.request.detect (jsTrim s.inputText)
        (detectForLabel w e.detect (jsTrim s.inputText) (s.writeOutput translatingStatus))).2
    with ⟨r, s₃⟩
  rw [hca] at q3 hf
  dsimp only at hf q3
  subst hf
  rw [← ht] at hca hdiff
  have hg := getTranslation_of_check_error w e.request (jsTrim s.inputText)
    (detectForLabel w e.detect (jsTrim s.inputText) (s.writeOutput translatingStatus))
    hdiff _ s₃ hca
  rw [translate_of_error w e s hne _ s₃ hg]
  have q : Quiet (fun c => c.isDetection || c.isAvailability) (s.writeOutput translatingStatus)
      s₃ :=
    ((q1.trans q2).mono (fun c hc => by simp [hc])).trans (q3.mono (fun c hc => by simp [hc]))
  have q4 := checkAPISupport_quiet (fun c => c.isDetection || c.isAvailability) w
    (s₃.logConsole "Error al obtener los idiomas:")
  have q5 := (q.trans (Quiet.logConsole _ s₃ "Error al obtener los idiomas:")).trans q4
  obtain ⟨new, hn, hd⟩ := q5.calls
  have hmsg : capabilityMissingMessage ≠ pairUnavailableMessage := by decide
  refine ⟨rfl, Or.inl rfl, hmsg, new, hn, fun c hc => ?_⟩
  have := hd c hc
  rcases (Bool.or_eq_true _ _).mp this with h | h
  · exact (Call.quiet_of_isDetection c h).2
  · exact Call.quiet_of_isAvailability c h

/-- Witness of C2 amended: `Hola` from `es` to `en` on a host reporting the pair unavailable. -/
theorem translate_availability_failure_witness :
    jsTrim holaSession.inputText ≠ "" ∧
    ((translate fullWindow ⟨detectsEs, unavailableHost⟩ holaSession).2.outputText =
        capabilityMissingMessage ∨
      (translate fullWindow ⟨detectsEs, unavailableHost⟩ holaSession).2.outputText =
        genericFailureMessage) :=
  ⟨by decide,
    (translate_availability_failure fullWindow ⟨detectsEs, unavailableHost⟩ holaSession
      (by decide) (by decide) (Or.inr (Or.inl rfl))).2.1⟩

/-- C3: when the resolved source differs from the target and the availability
check reports `unavailable`, `getTranslation` fails, makes no call to
`Translator.create` or to an engine `translate`, and leaves
`currentTranslator` and `currentTranslatorKey` as they were. -/
theorem getTranslation_unavailable (w : Window) (e : RequestEnv) (text : String)
    (s : Session) (hw : w.hasTranslator = true)
    (hdiff : (resolveSource w e.detect text s).1 ≠ .str s.targetLanguage)
    (hun : e.availability (resolveSource w e.detect text s).1 s.targetLanguage =
      .ok "unavailable") :
    (getTranslation w e text s).1 = .error ⟨availabilityCheckMessage⟩ ∧
    (getTranslation w e text s).2.calls =
      (resolveSource w e.detect text s).2.calls ++
        [.availability (resolveSource w e.detect text s).1 s.targetLanguage] ∧
    (∃ new, (getTranslation w e text s).2.calls = s.calls ++ new ∧
      ∀ c ∈ new, c.isCreate = false ∧ c.isEngineTranslate = false) ∧
    (getTranslation w e text s).2.currentTranslator = s.currentTranslator ∧
    (getTranslation w e text s).2.currentTranslatorKey = s.currentTranslatorKey := by
  have q2 := resolveSource_quiet w e.detect text s
  rw [getTranslation_differ w e text s hdiff,
    checkAvailability_unavailable w e _ _ _ hw hun]
  obtain ⟨new, hn, hd⟩ := q2.calls
  refine ⟨rfl, rfl, ⟨new ++ [.availability (resolveSource w e.detect text s).1
    s.targetLanguage], ?_, ?_⟩, q2.currentTranslator, q2.currentTranslatorKey⟩
  · show (resolveSource w e.detect text s).2.calls ++ _ = _
    rw [hn, List.append_assoc]
  · intro c hc
    rcases List.mem_append.mp hc with h | h
    · exact (Call.quiet_of_isDetection c (hd c h)).2
    · rw [List.mem_singleton] at h
      subst h
      exact ⟨rfl, rfl⟩

/-- Witness of C3: `Hola` from `es` to `en` on a host reporting the pair unavailable. -/
theorem getTranslation_unavailable_witness :
    fullWindow.hasTranslator = true ∧
    (getTranslation fullWindow unavailableHost "Hola" holaSession).1 =
      .error ⟨availabilityCheckMessage⟩ ∧
    (getTranslation fullWindow unavailableHost "Hola" holaSession).2.currentTranslator =
      none :=
  ⟨rfl,
    (getTranslation_unavailable fullWindow unavailableHost "Hola" holaSession rfl
      (by decide) rfl).1,
    (getTranslation_unavailable fullWindow unavailableHost "Hola" holaSession rfl
      (by decide) rfl).2.2.2.1⟩

/-- C10: when the input is non-empty after trimming, the resolved source
differs from the target and the availability check answers with a status other
than `unavailable`, then if the engine creation (needed and) fails, or the
`translate` call of the engine in use fails, `translate` ends without an error
and with the output showing the generic failure message. -/
theorem translate_engine_failure (w : Window) (e : TranslateEnv) (s : Session)
    (src : JSVal) (status : String)
    (hne : jsTrim s.inputText ≠ "")
    (hw : w.hasTranslator = true)
    (hsrc : translateSourceLang w e s = src)
    (hdiff : src ≠ .str s.targetLanguage)
    (hav : e.request.availability src s.targetLanguage = .ok status)
    (hst : status ≠ "unavailable")
    (hfail :
      (needsNewEngine s (translationKey src s.targetLanguage) = true ∧
        ∃ err, (e.request.create src s.targetLanguage).result = .error err) ∨
      (needsNewEngine s (translationKey src s.targetLanguage) = true ∧
        ∃ h err, (e.request.create src s.targetLanguage).result = .ok h ∧
          e.request.engineTranslate h (jsTrim s.inputText) = .error err) ∨
      (∃ h err, s.currentTranslator = some h ∧
        s.currentTranslatorKey = some (translationKey src s.targetLanguage) ∧
        e.request.engineTranslate h (jsTrim s.inputText) = .error err)) :
    (translate w e s).1 = .ok () ∧
    (translate w e s).2.outputText = genericFailureMessage := by
  have q1 := detectForLabel_quiet w e.detect (jsTrim s.inputText)
    (s.writeOutput translatingStatus)
  have q2 := resolveSource_quiet w e.request.detect (jsTrim s.inputText)
    (detectForLabel w e.detect (jsTrim s.inputText) (s.writeOutput translatingStatus))
  have q := q1.trans q2
  have ht : (detectForLabel w e.detect (jsTrim s.inputText)
      (s.writeOutput translatingStatus)).targetLanguage = s.targetLanguage :=
    q1.targetLanguage
  unfold translateSourceLang at hsrc
  dsimp only at hsrc
  have hca := checkAvailability_ok w e.request src s.targetLanguage
    (resolveSource w e.request.detect (jsTrim s.inputText)
      (detectForLabel w e.detect (jsTrim s.inputText) (s.writeOutput translatingStatus))).2
    status hw hav hst
  rw [← hsrc, ← ht] at hca
  have hg := getTranslation_of_check_ok w e.request (jsTrim s.inputText)
    (detectForLabel w e.detect (jsTrim s.inputText) (s.writeOutput translatingStatus))
    (by rw [hsrc, ht]; exact hdiff) _ hca
  rw [translate_of_ok w e s hne _ _ hg, hsrc, ht]
  refine ⟨rfl, ?_⟩
  show (translateWithEngine w e.request src s.targetLanguage (jsTrim s.inputText) _).1 =
    genericFailureMessage
  have hct : ((resolveSource w e.request.detect (jsTrim s.inputText)
      (detectForLabel w e.detect (jsTrim s.inputText)
        (s.writeOutput translatingStatus))).2.logCall
      (.availability src s.targetLanguage)).currentTranslator = s.currentTranslator :=
    q.currentTranslator
  have hck : ((resolveSource w e.request.detect (jsTrim s.inputText)
      (detectForLabel w e.detect (jsTrim s.inputText)
        (s.writeOutput translatingStatus))).2.logCall
      (.availability src s.targetLanguage)).currentTranslatorKey = s.currentTranslatorKey :=
    q.currentTranslatorKey
  have hneeds : ∀ k, needsNewEngine ((resolveSource w e.request.detect (jsTrim s.inputText)
      (detectForLabel w e.detect (jsTrim s.inputText)
        (s.writeOutput translatingStatus))).2.logCall
      (.availability src s.targetLanguage)) k = needsNewEngine s k := by
    intro k
    unfold needsNewEngine
    rw [hct, hck]
  rcases hfail with ⟨hm, err, hc⟩ | ⟨hm, h, err, hc, hf⟩ | ⟨h, err, hc, hk, hf⟩
  · exact (translateWithEngine_miss_error w e.request src s.targetLanguage _ _ hw
      (by rw [hneeds]; exact hm) err hc).1
  · rw [(translateWithEngine_miss_ok w e.request src s.targetLanguage _ _ h hw
      (by rw [hneeds]; exact hm) hc).1, hf]
  · rw [(translateWithEngine_hit w e.request src s.targetLanguage _ _ h
      (by rw [hct]; exact hc) (by rw [hck]; exact hk)).1, hf]

/-- Witness of C10: `Hola` from `es` to `en` on a host whose engine creation rejects. -/
theorem translate_engine_failure_witness :
    jsTrim holaSession.inputText ≠ "" ∧
    (translate fullWindow ⟨detectsEs, brokenCreateHost⟩ holaSession).2.outputText =
      genericFailureMessage :=
  ⟨by decide,
    (translate_engine_failure fullWindow ⟨detectsEs, brokenCreateHost⟩ holaSession
      (.str "es") "available" (by decide) rfl rfl (by decide) rfl (by decide)
      (Or.inl ⟨rfl, ⟨"NotAllowedError"⟩, rfl⟩)).2⟩

/-- C4: take two consecutive `getTranslation` requests with the same resolved
pair (source different from target), both passing the availability check, the
first one obtaining its engine (cached, or created successfully).  Then the
first request leaves an engine `h` cached under the key of the pair, and the
second request makes no `Translator.create` call, translates with that same
`h`, and leaves `currentTranslator` and `currentTranslatorKey` as the first
request left them. -/
theorem getTranslation_reuses_engine (w : Window) (e₁ e₂ : RequestEnv)
    (text₁ text₂ : String) (s : Session) (src : JSVal) (st₁ st₂ : String)
    (hw : w.hasTranslator = true)
    (hsrc₁ : (resolveSource w e₁.detect text₁ s).1 = src)
    (hsrc₂ : (resolveSource w e₂.detect text₂ (getTranslation w e₁ text₁ s).2).1 = src)
    (hdiff : src ≠ .str s.targetLanguage)
    (hav₁ : e₁.availability src s.targetLanguage = .ok st₁) (hst₁ : st₁ ≠ "unavailable")
    (hcr₁ : needsNewEngine s (translationKey src s.targetLanguage) = true →
      ∃ h, (e₁.create src s.targetLanguage).result = .ok h)
    (hav₂ : e₂.availability src s.targetLanguage = .ok st₂) (hst₂ : st₂ ≠ "unavailable") :
    ∃ h,
      (getTranslation w e₁ text₁ s).2.currentTranslator = some h ∧
      (getTranslation w e₁ text₁ s).2.currentTranslatorKey =
        some (translationKey src s.targetLanguage) ∧
      (getTranslation w e₂ text₂ (getTranslation w e₁ text₁ s).2).2.currentTranslator =
        some h ∧
      (getTranslation w e₂ text₂ (getTranslation w e₁ text₁ s).2).2.currentTranslatorKey =
        some (translationKey src s.targetLanguage) ∧
      (getTranslation w e₂ text₂ (getTranslation w e₁ text₁ s).2).2.calls =
        (resolveSource w e₂.detect text₂ (getTranslation w e₁ text₁ s).2).2.calls ++
          [.availability src s.targetLanguage, .engineTranslate h text₂] ∧
      (∃ new, (getTranslation w e₂ text₂ (getTranslation w e₁ text₁ s).2).2.calls =
          (getTranslation w e₁ text₁ s).2.calls ++ new ∧ ∀ c ∈ new, c.isCreate = false) ∧
      (getTranslation w e₂ text₂ (getTranslation w e₁ text₁ s).2).1 =
        .ok (match e₂.engineTranslate h text₂ with
          | .ok translation => translation
          | .error _ => genericFailureMessage) := by
  -- the first request
  have qa := resolveSource_quiet w e₁.detect text₁ s
  have hfirst : ∃ h, (getTranslation w e₁ text₁ s).2.currentTranslator = some h ∧
      (getTranslation w e₁ text₁ s).2.currentTranslatorKey =
        some (translationKey src s.targetLanguage) := by
    rw [getTranslation_available w e₁ text₁ s src st₁ hw hsrc₁ hdiff hav₁ hst₁]
    have hn := needsNewEngine_congr s ((resolveSource w e₁.detect text₁ s).2.logCall
      (.availability src s.targetLanguage)) (translationKey src s.targetLanguage)
      qa.currentTranslator qa.currentTranslatorKey
    cases hm : needsNewEngine s (translationKey src s.targetLanguage) with
    | true =>
      obtain ⟨h, hc⟩ := hcr₁ hm
      have := translateWithEngine_miss_ok w e₁ src s.targetLanguage text₁ _ h hw
        (hn.trans hm) hc
      exact ⟨h, this.2.1, this.2.2.1⟩
    | false =>
      obtain ⟨h₀, hc, hk⟩ := needsNewEngine_false s _ hm
      have := translateWithEngine_hit w e₁ src s.targetLanguage text₁
        ((resolveSource w e₁.detect text₁ s).2.logCall (.availability src s.targetLanguage))
        h₀ (qa.currentTranslator.trans hc) (qa.currentTranslatorKey.trans hk)
      exact ⟨h₀, this.2.1, this.2.2.1⟩
  obtain ⟨h, hc₁, hk₁⟩ := hfirst
  -- the second request
  have htgt : (getTranslation w e₁ text₁ s).2.targetLanguage = s.targetLanguage :=
    (getTranslation_sameSelectors w e₁ text₁ s).2.1
  have qb := resolveSource_quiet w e₂.detect text₂ (getTranslation w e₁ text₁ s).2
  have hg := getTranslation_available w e₂ text₂ (getTranslation w e₁ text₁ s).2 src st₂ hw
    hsrc₂ (by rw [htgt]; exact hdiff) (by rw [htgt]; exact hav₂) hst₂
  rw [htgt] at hg
  have hit := translateWithEngine_hit w e₂ src s.targetLanguage text₂
    ((resolveSource w e₂.detect text₂ (getTranslation w e₁ text₁ s).2).2.logCall
      (.availability src s.targetLanguage))
    h (qb.currentTranslator.trans hc₁) (qb.currentTranslatorKey.trans hk₁)
  obtain ⟨new, hnew, hdet⟩ := qb.calls
  refine ⟨h, hc₁, hk₁, ?_, ?_, ?_, ?_, ?_⟩
  · rw [hg]; exact hit.2.1
  · rw [hg]; exact hit.2.2.1
  · rw [hg]
    show (translateWithEngine _ _ _ _ _ _).2.calls = _
    rw [hit.2.2.2]
    simp [Session.logCall]
  · refine ⟨new ++ [.availability src s.targetLanguage, .engineTranslate h text₂], ?_, ?_⟩
    · rw [hg]
      show (translateWithEngine _ _ _ _ _ _).2.calls = _
      rw [hit.2.2.2]
      simp [Session.logCall, hnew]
    · intro c hc
      rcases List.mem_append.mp hc with h' | h'
      · exact (Call.quiet_of_isDetection c (hdet c h')).2.1
      · simp only [List.mem_cons, List.mem_singleton, List.not_mem_nil, or_false] at h'
        rcases h' with rfl | rfl <;> rfl
  · rw [hg]
    show Except.ok (translateWithEngine _ _ _ _ _ _).1 = _
    rw [hit.1]

/-- Witness of C4: two requests from `es` to `en`; the second runs on a host whose engine creation would reject, and still translates with engine 1. -/
theorem getTranslation_reuses_engine_witness :
    fullWindow.hasTranslator = true ∧
    (getTranslation fullWindow workingHost "Hola" holaSession).2.currentTranslator = some 1 ∧
    (getTranslation fullWindow brokenCreateHost "Adios"
      (getTranslation fullWindow workingHost "Hola" holaSession).2).2.calls =
      [.availability (.str "es") "en", .create (.str "es") "en", .engineTranslate 1 "Hola",
        .availability (.str "es") "en", .engineTranslate 1 "Adios"] ∧
    ∃ h,
      (getTranslation fullWindow workingHost "Hola" holaSession).2.currentTranslator = some h ∧
      (getTranslation fullWindow brokenCreateHost "Adios"
        (getTranslation fullWindow workingHost "Hola" holaSession).2).2.currentTranslator =
        some h :=
  ⟨rfl, by decide, by decide,
    (getTranslation_reuses_engine fullWindow workingHost brokenCreateHost "Hola" "Adios"
      holaSession (.str "es") "available" "available" rfl rfl rfl (by decide) rfl (by decide)
      (fun _ => ⟨1, rfl⟩) rfl (by decide)).imp (fun _ hh => ⟨hh.1, hh.2.2.1⟩)⟩

/-- C5 as stated fails for arbitrary strings: engine 1 is created for the pair
(`zh-Hant`, `en`); the next request is for the different pair (`zh`,
`Hant-en`), whose key `zh-Hant-en` is the same, so no engine is created for
the requested pair and the text is translated by engine 1. -/
theorem getTranslation_key_collision :
    (getTranslation fullWindow twoEngineHost "Hola" hyphenSession).2.calls =
      [.availability (.str "zh-Hant") "en", .create (.str "zh-Hant") "en",
        .engineTranslate 1 "Hola"] ∧
    reselectedSession.currentTranslator = some 1 ∧
    (reselectedSession.sourceLanguage, reselectedSession.targetLanguage) ≠
      (hyphenSession.sourceLanguage, hyphenSession.targetLanguage) ∧
    (resolveSource fullWindow twoEngineHost.detect "Hola" reselectedSession).1 ≠
      .str reselectedSession.targetLanguage ∧
    (getTranslation fullWindow twoEngineHost "Hola" reselectedSession).2.calls =
      reselectedSession.calls ++
        [.availability (.str "zh") "Hant-en", .engineTranslate 1 "Hola"] ∧
    Call.create (.str "zh") "Hant-en" ∉
      (getTranslation fullWindow twoEngineHost "Hola" reselectedSession).2.calls := by
  decide

/-- C5 amended: the cache is keyed by the string `source-target`.  For every
session with a cached translator and every request (source different from
target, availability check passed) whose key differs from the cached key,
`getTranslation` calls `Translator.create` for exactly the requested pair;
when the creation succeeds it stores the new engine and the new key and the
text is translated by the new engine only; when it fails no engine translates
the text and the cache is left as it was. -/
theorem getTranslation_replaces_engine (w : Window) (e : RequestEnv) (text : String)
    (s : Session) (src : JSVal) (status : String) (h₀ : Handle)
    (hw : w.hasTranslator = true)
    (hsrc : (resolveSource w e.detect text s).1 = src)
    (hdiff : src ≠ .str s.targetLanguage)
    (hav : e.availability src s.targetLanguage = .ok status)
    (hst : status ≠ "unavailable")
    (hcached : s.currentTranslator = some h₀)
    (hkey : s.currentTranslatorKey ≠ some (translationKey src s.targetLanguage)) :
    (∀ h, (e.create src s.targetLanguage).result = .ok h →
      (getTranslation w e text s).2.currentTranslator = some h ∧
      (getTranslation w e text s).2.currentTranslatorKey =
        some (translationKey src s.targetLanguage) ∧
      (getTranslation w e text s).2.calls =
        (resolveSource w e.detect text s).2.calls ++
          [.availability src s.targetLanguage, .create src s.targetLanguage,
            .engineTranslate h text]) ∧
    (∀ err, (e.create src s.targetLanguage).result = .error err →
      (getTranslation w e text s).1 = .ok genericFailureMessage ∧
      (getTranslation w e text s).2.currentTranslator = some h₀ ∧
      (getTranslation w e text s).2.currentTranslatorKey = s.currentTranslatorKey ∧
      (getTranslation w e text s).2.calls =
        (resolveSource w e.detect text s).2.calls ++
          [.availability src s.targetLanguage, .create src s.targetLanguage]) := by
  have qa := resolveSource_quiet w e.detect text s
  have hm : needsNewEngine ((resolveSource w e.detect text s).2.logCall
      (.availability src s.targetLanguage)) (translationKey src s.targetLanguage) = true := by
    have hn := needsNewEngine_congr s ((resolveSource w e.detect text s).2.logCall
      (.availability src s.targetLanguage)) (translationKey src s.targetLanguage)
      qa.currentTranslator qa.currentTranslatorKey
    rw [hn]
    unfold needsNewEngine
    simp [hkey]
  rw [getTranslation_available w e text s src status hw hsrc hdiff hav hst]
  constructor
  · intro h hc
    have := translateWithEngine_miss_ok w e src s.targetLanguage text _ h hw hm hc
    refine ⟨this.2.1, this.2.2.1, ?_⟩
    show (translateWithEngine _ _ _ _ _ _).2.calls = _
    rw [this.2.2.2]
    simp [Session.logCall]
  · intro err hc
    have := translateWithEngine_miss_error w e src s.targetLanguage text _ hw hm err hc
    refine ⟨?_, ?_, ?_, ?_⟩
    · show Except.ok (translateWithEngine _ _ _ _ _ _).1 = _
      rw [this.1]
    · exact this.2.1.trans (qa.currentTranslator.trans hcached)
    · exact this.2.2.1.trans qa.currentTranslatorKey
    · show (translateWithEngine _ _ _ _ _ _).2.calls = _
      rw [this.2.2.2]
      simp [Session.logCall]

/-- Witness of C5 amended: engine cached for (`es`, `en`), request for (`fr`, `en`). -/
theorem getTranslation_replaces_engine_witness :
    frenchSession.currentTranslator = some 1 ∧
    frenchSession.currentTranslatorKey ≠ some (translationKey (.str "fr") "en") ∧
    (getTranslation fullWindow twoEngineHost "Hola" frenchSession).2.currentTranslatorKey =
      some "fr-en" ∧
    (getTranslation fullWindow twoEngineHost "Hola" frenchSession).2.calls =
      frenchSession.calls ++
        [.availability (.str "fr") "en", .create (.str "fr") "en",
          .engineTranslate 1 "Hola"] :=
  ⟨by decide, by decide,
    ((getTranslation_replaces_engine fullWindow twoEngineHost "Hola" frenchSession
      (.str "fr") "available" 1 rfl rfl (by decide) rfl (by decide) (by decide)
      (by decide)).1 1 rfl).2.1,
    ((getTranslation_replaces_engine fullWindow twoEngineHost "Hola" frenchSession
      (.str "fr") "available" 1 rfl rfl (by decide) rfl (by decide) (by decide)
      (by decide)).1 1 rfl).2.2⟩

/-- C8: if the source selection is `auto` and detection resolves to the
language `d`, then after `swapLanguages` the stored source is the old target,
the stored target is `d` and the input text is the old output text; if the
source is a concrete language, the stored pair after the swap is the old pair
exchanged and the input text is the old output text. -/
theorem swapLanguages_exchanges (w : Window) (e : SwapEnv) (s : Session) :
    (s.sourceLanguage = "auto" →
      ∀ d, (detectLanguage w e.detect (jsTrim s.inputText) s).1 = .str d →
        (swapLanguages w e s).sourceLanguage = s.targetLanguage ∧
        (swapLanguages w e s).targetLanguage = d ∧
        (swapLanguages w e s).inputText = s.outputText) ∧
    (s.sourceLanguage ≠ "auto" →
      (swapLanguages w e s).sourceLanguage = s.targetLanguage ∧
      (swapLanguages w e s).targetLanguage = s.sourceLanguage ∧
      (swapLanguages w e s).inputText = s.outputText) := by
  unfold swapLanguages
  constructor
  · intro hauto d hd
    have q := detectLanguage_quiet w e.detect (jsTrim s.inputText) s
    have hr : resolveAutoSource w e.detect s =
        { (detectLanguage w e.detect (jsTrim s.inputText) s).2 with
          sourceLanguage := (detectLanguage w e.detect (jsTrim s.inputText) s).1.toJSString } := by
      unfold resolveAutoSource
      rw [if_pos hauto]
    rw [hr]
    have tail := exchangeLanguages_spec w e.translate
      { (detectLanguage w e.detect (jsTrim s.inputText) s).2 with
        sourceLanguage := (detectLanguage w e.detect (jsTrim s.inputText) s).1.toJSString }
    have hsrc : (detectLanguage w e.detect (jsTrim s.inputText) s).1.toJSString = d := by
      rw [hd]
      rfl
    exact ⟨tail.1.trans q.targetLanguage, tail.2.1.trans hsrc, tail.2.2.trans q.outputText⟩
  · intro hconc
    have hr : resolveAutoSource w e.detect s = s := by
      unfold resolveAutoSource
      rw [if_neg hconc]
    rw [hr]
    exact exchangeLanguages_spec w e.translate s

/-- Witness of C8: the pair (`auto`, `en`) with detection `es` becomes (`en`, `es`), and the output `Hello` becomes the input. -/
theorem swapLanguages_exchanges_witness :
    autoSession.sourceLanguage = "auto" ∧ autoSession.targetLanguage = "en" ∧
    (swapLanguages fullWindow ⟨detectsEs, detectsEs, workingHost⟩ autoSession).sourceLanguage =
      "en" ∧
    (swapLanguages fullWindow ⟨detectsEs, detectsEs, workingHost⟩ autoSession).targetLanguage =
      "es" ∧
    (swapLanguages fullWindow ⟨detectsEs, detectsEs, workingHost⟩ autoSession).inputText =
      "Hello" :=
  ⟨rfl, rfl,
    (swapLanguages_exchanges fullWindow ⟨detectsEs, detectsEs, workingHost⟩ autoSession).1 rfl
      "es" (by decide)⟩

/-- C9: take a burst of `debounceTranslate` calls, each less than 500 ms after
the previous one, started in a state whose pending timers (if any) are the one
remembered in `translationTimeout`.  During the burst no translation trigger
fires and at most one timer is pending at any time; after the last call
exactly the timer scheduled by that call is pending, due 500 ms after it;
nothing fires before those 500 ms have passed, and once they have, exactly
that one trigger has fired and no timer is left. -/
theorem debounce_coalesces (gaps : List Nat) (h : TimerHost) (s : Session)
    (hinv : ∀ t ∈ h.pending, s.translationTimeout = some t.id)
    (hgaps : ∀ g ∈ gaps, g < 500) :
    (∀ st ∈ burstStates gaps (debounceTranslate h s),
      ∀ dt, (advance dt st.1).pending.length ≤ 1) ∧
    (burstEnd gaps (debounceTranslate h s)).1.fired = h.fired ∧
    (burstEnd gaps (debounceTranslate h s)).1.now = h.now + gaps.sum ∧
    ∃ last,
      (burstEnd gaps (debounceTranslate h s)).2.translationTimeout = some last ∧
      (burstEnd gaps (debounceTranslate h s)).1.pending =
        [⟨last, h.now + gaps.sum + 500⟩] ∧
      (∀ dt, dt < 500 →
        (advance dt (burstEnd gaps (debounceTranslate h s)).1).fired = h.fired) ∧
      (∀ dt, 500 ≤ dt →
        (advance dt (burstEnd gaps (debounceTranslate h s)).1).fired =
          h.fired ++ [⟨last, h.now + gaps.sum + 500⟩] ∧
        (advance dt (burstEnd gaps (debounceTranslate h s)).1).pending = []) := by
  obtain ⟨f1, f2, f3, f4⟩ := debounceTranslate_first h s hinv
  obtain ⟨b1, b2, b3, last, b4, b5⟩ := burst_invariant gaps (debounceTranslate h s) h.nextId f1
    (by rw [f2, f4]) hgaps
  rw [f3] at b2
  rw [f4] at b3
  refine ⟨?_, b2, b3, last, b4, ?_, ?_, ?_⟩
  · intro st hst dt
    exact Nat.le_trans (advance_pending_length st.1 dt) (b1 st hst)
  · rw [b5, b3]
  · intro dt hdt
    rw [(advance_before_due _ last dt b5 hdt).2.1, b2]
  · intro dt hdt
    obtain ⟨a1, a2⟩ := advance_after_due _ last dt b5 hdt
    rw [a2, b2, b3] at *
    exact ⟨rfl, a1⟩

/-- Witness of C9: four calls at 0, 100, 599 and 599 ms after page load; the single trigger is timer 4 at 1099 ms. -/
theorem debounce_coalesces_witness :
    (∀ g ∈ [100, 499, 0], g < 500) ∧
    (advance 500 (burstEnd [100, 499, 0]
      (debounceTranslate TimerHost.initial Session.initial)).1).fired = [⟨4, 1099⟩] :=
  ⟨by decide,
    (debounce_coalesces [100, 499, 0] TimerHost.initial Session.initial
      (fun _ ht => nomatch ht) (by decide)).2.2.2.elim
      (fun last hl => by
        have h1 := hl.2.2.2 500 (Nat.le_refl 500)
        have h2 : (burstEnd [100, 499, 0]
          (debounceTranslate TimerHost.initial Session.initial)).2.translationTimeout =
            some 4 := by decide
        rw [hl.1] at h2
        injection h2 with h2
        rw [h1.1, h2]
        rfl)⟩

end GoogleTranslate
